import Mathlib

/-!
A verification development for the offline-first synchronization core of the
air-todoist-standalone client.  The definitions below are a shallow embedding
of the TypeScript source:

* `src/db/index.ts`   — the Dexie (IndexedDB) local store: entity tables, the
  sync queue, and the local CRUD / sync-queue operations;
* `src/store/index.ts` — the Zustand store: the optimistic mutation entry
  points (`createTask`, `updateTask`, `deleteTask`), the reconciliation loop
  (`syncPendingChanges`), and the connectivity handler (`setOnlineStatus`);
* `src/components/SyncStatusIndicator.tsx` — the pure `getSyncState` function.

Remote (Airtable) calls are modelled as an oracle: each outgoing call either
succeeds (for CREATE, returning the remote-issued record id) or fails with a
message.  The list of issued `GatewayCall`s is returned alongside the final
state, so that theorems can speak about which remote calls were made and in
which order.  Time (`Date.now()`) is passed in explicitly.  JavaScript
truthiness (`x || d`, `if (s)`) on strings/numbers is modelled by explicit
helper functions so that the empty string and zero behave as in the source.
-/

namespace AirTodoist

/-! ## JavaScript value helpers

A `Partial<Task>` field is `none` when the key is absent (JS `undefined`) and
`some v` when present.  A nullable field (`string | null`) is an inner
`Option`: `some s` is a string, `none` is JS `null`. -/

/-- JS truthiness of a `string | null | undefined` value: `null`/`undefined`
and the empty string are falsy. -/
def jsTruthyStr : Option String → Bool
  | some s => s != ""
  | none => false

/-- JS `v || d` for a possibly-absent string: the default is used when the
value is absent or the empty string. -/
def jsOrStr (v : Option String) (d : String) : String :=
  match v with
  | some s => if s = "" then d else s
  | none => d

/-- JS `v || d` for a possibly-absent nullable string (`string | null`):
the default is used when the value is absent, `null` or `""`. -/
def jsOrNStr (v : Option (Option String)) (d : String) : String :=
  match v with
  | some (some s) => if s = "" then d else s
  | _ => d

/-- JS `v || null` for a possibly-absent nullable string: `""` collapses to
`null`. -/
def jsOrNullStr (v : Option (Option String)) : Option String :=
  match v with
  | some (some s) => if s = "" then none else some s
  | _ => none

/-- JS `v || null` for a possibly-absent nullable number: `0` collapses to
`null` (JS numeric falsiness). -/
def jsOrNullNum (v : Option (Option Int)) : Option Int :=
  match v with
  | some (some n) => if n = 0 then none else some n
  | _ => none

/-! ## Data model (`src/types/index.ts`, `src/db/index.ts`) -/

/-- `SyncStatus` from `src/types/index.ts`. -/
inductive SyncStatus
  | synced
  | pending
  | error
deriving DecidableEq, Repr

/-- The `Task` interface from `src/types/index.ts` (domain fields; the
local-only `_`-prefixed sync metadata lives on `LocalTask`).  Nullable
fields (`string | null`) are `Option`; the optional denormalized
`projectName?`/`tagNames?` are `Option` with `none` for an absent key. -/
structure Task where
  id : String
  name : String
  status : Option String
  priority : Option String
  startDate : Option String
  dueDate : Option String
  completedDate : Option String
  projectId : Option String
  projectName : Option String
  tagIds : List String
  tagNames : Option (List String)
  parentTaskId : Option String
  subtaskIds : List String
  sectionId : Option String
  notes : String
  syncToCalendar : Bool
  scheduledTime : Option String
  duration : Option String
  calendarEventId : Option String
  calendarSyncStatus : Option String
  plannedEffort : Option Int
  actualEffort : Option Int
deriving DecidableEq, Repr

/-- `Partial<Task>` (and also the domain-field part of a stored row, which can
lack keys when it was written from a partial payload): every field is `none`
when the key is absent.  The `id` key and `_`-prefixed metadata keys are
carried separately where they matter and are not part of this record. -/
structure PTask where
  name : Option String := none
  status : Option (Option String) := none
  priority : Option (Option String) := none
  startDate : Option (Option String) := none
  dueDate : Option (Option String) := none
  completedDate : Option (Option String) := none
  projectId : Option (Option String) := none
  projectName : Option String := none
  tagIds : Option (List String) := none
  tagNames : Option (List String) := none
  parentTaskId : Option (Option String) := none
  subtaskIds : Option (List String) := none
  sectionId : Option (Option String) := none
  notes : Option String := none
  syncToCalendar : Option Bool := none
  scheduledTime : Option (Option String) := none
  duration : Option (Option String) := none
  calendarEventId : Option (Option String) := none
  calendarSyncStatus : Option (Option String) := none
  plannedEffort : Option (Option Int) := none
  actualEffort : Option (Option Int) := none
deriving DecidableEq, Repr

/-- The empty payload `{}` (used by DELETE queue items). -/
def PTask.empty : PTask := {}

/-- View a full `Task` as a record with every domain key present (the JS
spread `{...t}` of a fetched task). -/
def PTask.ofTask (t : Task) : PTask where
  name := some t.name
  status := some t.status
  priority := some t.priority
  startDate := some t.startDate
  dueDate := some t.dueDate
  completedDate := some t.completedDate
  projectId := some t.projectId
  projectName := t.projectName
  tagIds := some t.tagIds
  tagNames := t.tagNames
  parentTaskId := some t.parentTaskId
  subtaskIds := some t.subtaskIds
  sectionId := some t.sectionId
  notes := some t.notes
  syncToCalendar := some t.syncToCalendar
  scheduledTime := some t.scheduledTime
  duration := some t.duration
  calendarEventId := some t.calendarEventId
  calendarSyncStatus := some t.calendarSyncStatus
  plannedEffort := some t.plannedEffort
  actualEffort := some t.actualEffort

/-- Present-key-wins override, the JS object spread `{...base, ...upd}` at a
single key: the update value is taken when the key is present. -/
def ov {β : Type} (upd base : Option β) : Option β :=
  match upd with
  | some v => some v
  | none => base

/-- JS spread `{...base, ...upd}` on the domain fields of a task record:
every key present in `upd` overrides `base`. -/
def mergePTask (base upd : PTask) : PTask where
  name := ov upd.name base.name
  status := ov upd.status base.status
  priority := ov upd.priority base.priority
  startDate := ov upd.startDate base.startDate
  dueDate := ov upd.dueDate base.dueDate
  completedDate := ov upd.completedDate base.completedDate
  projectId := ov upd.projectId base.projectId
  projectName := ov upd.projectName base.projectName
  tagIds := ov upd.tagIds base.tagIds
  tagNames := ov upd.tagNames base.tagNames
  parentTaskId := ov upd.parentTaskId base.parentTaskId
  subtaskIds := ov upd.subtaskIds base.subtaskIds
  sectionId := ov upd.sectionId base.sectionId
  notes := ov upd.notes base.notes
  syncToCalendar := ov upd.syncToCalendar base.syncToCalendar
  scheduledTime := ov upd.scheduledTime base.scheduledTime
  duration := ov upd.duration base.duration
  calendarEventId := ov upd.calendarEventId base.calendarEventId
  calendarSyncStatus := ov upd.calendarSyncStatus base.calendarSyncStatus
  plannedEffort := ov upd.plannedEffort base.plannedEffort
  actualEffort := ov upd.actualEffort base.actualEffort

/-- JS spread `{...t, ...updates}` on a full in-memory `Task` (used by the
store's optimistic `updateTask`): keys present in the partial override the
task's fields. -/
def mergeTask (t : Task) (u : PTask) : Task where
  id := t.id
  name := u.name.getD t.name
  status := u.status.getD t.status
  priority := u.priority.getD t.priority
  startDate := u.startDate.getD t.startDate
  dueDate := u.dueDate.getD t.dueDate
  completedDate := u.completedDate.getD t.completedDate
  projectId := u.projectId.getD t.projectId
  projectName := ov u.projectName t.projectName
  tagIds := u.tagIds.getD t.tagIds
  tagNames := ov u.tagNames t.tagNames
  parentTaskId := u.parentTaskId.getD t.parentTaskId
  subtaskIds := u.subtaskIds.getD t.subtaskIds
  sectionId := u.sectionId.getD t.sectionId
  notes := u.notes.getD t.notes
  syncToCalendar := u.syncToCalendar.getD t.syncToCalendar
  scheduledTime := u.scheduledTime.getD t.scheduledTime
  duration := u.duration.getD t.duration
  calendarEventId := u.calendarEventId.getD t.calendarEventId
  calendarSyncStatus := u.calendarSyncStatus.getD t.calendarSyncStatus
  plannedEffort := u.plannedEffort.getD t.plannedEffort
  actualEffort := u.actualEffort.getD t.actualEffort

/-- `LocalTask` (a stored row of the `tasks` table, `src/db/index.ts` lines
8-13): the domain keys actually present on the stored object, plus the
local-only sync metadata.  Rows written by the CREATE-resolution path carry
only the keys of the queue payload, hence `fields : PTask`. -/
structure LocalTask where
  id : String
  fields : PTask
  _localId : Option String
  _syncStatus : SyncStatus
  _modifiedAt : Nat
  _createdAt : Option Nat
deriving DecidableEq, Repr

/-- The `Project` interface from `src/types/index.ts`. -/
structure Project where
  id : String
  name : String
  status : Option String
  description : String
  startDate : Option String
  targetDate : Option String
  notes : String
  taskIds : List String
deriving DecidableEq, Repr

/-- `LocalProject` (`src/db/index.ts` lines 15-18). -/
structure LocalProject where
  id : String
  name : String
  status : Option String
  description : String
  startDate : Option String
  targetDate : Option String
  notes : String
  taskIds : List String
  _syncStatus : SyncStatus
  _modifiedAt : Nat
deriving DecidableEq, Repr

/-- The `Section` interface from `src/types/index.ts`. -/
structure Section where
  id : String
  name : String
  projectId : Option String
  order : Int
  color : Option String
deriving DecidableEq, Repr

/-- `LocalSection` (`src/db/index.ts` lines 20-23). -/
structure LocalSection where
  id : String
  name : String
  projectId : Option String
  order : Int
  color : Option String
  _syncStatus : SyncStatus
  _modifiedAt : Nat
deriving DecidableEq, Repr

/-- The `Tag` interface from `src/types/index.ts` (no sync metadata). -/
structure Tag where
  id : String
  name : String
  type : Option String
  description : String
  taskIds : List String
deriving DecidableEq, Repr

/-- `{...p, _syncStatus: 'synced', _modifiedAt: now}` for a fetched task
(`saveAllToLocal`, `src/db/index.ts` line 89). -/
def Task.toLocalSynced (t : Task) (now : Nat) : LocalTask where
  id := t.id
  fields := PTask.ofTask t
  _localId := none
  _syncStatus := .synced
  _modifiedAt := now
  _createdAt := none

/-- `{...p, _syncStatus: 'synced', _modifiedAt: now}` for a fetched project
(`src/db/index.ts` line 92). -/
def Project.toLocalSynced (p : Project) (now : Nat) : LocalProject where
  id := p.id
  name := p.name
  status := p.status
  description := p.description
  startDate := p.startDate
  targetDate := p.targetDate
  notes := p.notes
  taskIds := p.taskIds
  _syncStatus := .synced
  _modifiedAt := now

/-- `{...s, _syncStatus: 'synced', _modifiedAt: now}` for a fetched section
(`src/db/index.ts` line 96). -/
def Section.toLocalSynced (s : Section) (now : Nat) : LocalSection where
  id := s.id
  name := s.name
  projectId := s.projectId
  order := s.order
  color := s.color
  _syncStatus := .synced
  _modifiedAt := now

/-- `SyncQueueItem` (`src/db/index.ts` lines 26-36).  `id` is the
auto-incrementing Dexie primary key (`++id`). -/
inductive QueueOp
  | CREATE
  | UPDATE
  | DELETE
deriving DecidableEq, Repr

/-- The `table` discriminator of a queue item (`'tasks' | 'projects' |
'sections'`). -/
inductive TableName
  | tasks
  | projects
  | sections
deriving DecidableEq, Repr

/-- A row of the `syncQueue` table. -/
structure SyncQueueItem where
  id : Nat
  type : QueueOp
  table : TableName
  recordId : String
  localId : Option String
  payload : PTask
  createdAt : Nat
  attempts : Nat
  lastError : Option String
deriving DecidableEq, Repr

/-- The `AirTodoistDB` Dexie database (`src/db/index.ts` lines 38-61): one
table per entity type, the sync queue (with its auto-increment counter made
explicit) and the `metadata` table's single `lastSync` key. -/
structure DB where
  tasks : List LocalTask
  projects : List LocalProject
  tags : List Tag
  sections : List LocalSection
  syncQueue : List SyncQueueItem
  nextQueueId : Nat
  lastSync : Option Nat
deriving DecidableEq, Repr

/-! ## Dexie table primitives

Tables are lists of rows keyed by a primary-key projection; the Dexie
operations used by the source are `put` (upsert by key), `delete` (by key,
a no-op on an absent key), `update` (merge into the row with the key, a
no-op on an absent key), `bulkPut`, and predicate deletes via `where`. -/

/-- Dexie `Table.put`: replace the row with the same primary key, or append. -/
def tablePut {α : Type} (key : α → String) (tbl : List α) (t : α) : List α :=
  if tbl.any (fun r => key r == key t) then
    tbl.map (fun r => if key r == key t then t else r)
  else tbl ++ [t]

/-- Dexie `Table.delete`: remove the row with the given primary key
(a no-op when the key is absent). -/
def tableDelete {α : Type} (key : α → String) (tbl : List α) (k : String) : List α :=
  tbl.filter (fun r => key r != k)

/-- Dexie `Table.update`: apply a change to the row with the given primary
key; a no-op when the key is absent. -/
def tableUpdate {α : Type} (key : α → String) (tbl : List α) (k : String) (f : α → α) :
    List α :=
  tbl.map (fun r => if key r == k then f r else r)

/-- Dexie `Table.bulkPut`: `put` each row in order. -/
def bulkPut {α : Type} (key : α → String) (tbl : List α) (news : List α) : List α :=
  news.foldl (tablePut key) tbl

/-- Number of rows of a table carrying a given primary key. -/
def keyCount {α : Type} (key : α → String) (tbl : List α) (k : String) : Nat :=
  tbl.countP (fun r => key r == k)

/-- Dexie `Table.add`: append a fresh row; adding a duplicate primary key is
a constraint error (`none`). -/
def tableAdd {α : Type} (key : α → String) (tbl : List α) (t : α) : Option (List α) :=
  if tbl.any (fun r => key r == key t) then none else some (tbl ++ [t])

/-! ## `src/db/index.ts` — sync operations and local CRUD -/

/-- The result shape of `api.fetchAllData()`. -/
structure FetchedData where
  tasks : List Task
  projects : List Project
  tags : List Tag
  sections : List Section
deriving DecidableEq, Repr

/-- `saveAllToLocal` (`src/db/index.ts` lines 72-102): inside one
transaction, delete every task/project/section row whose `_syncStatus` is
`'synced'`, clear the tags table, then `bulkPut` the fetched data with
`_syncStatus: 'synced'` and `_modifiedAt: now`; finally record the sync
time in the metadata table. -/
def saveAllToLocal (dbs : DB) (data : FetchedData) (now : Nat) : DB :=
  let tasks1 := dbs.tasks.filter (fun r => r._syncStatus != .synced)
  let projects1 := dbs.projects.filter (fun r => r._syncStatus != .synced)
  let sections1 := dbs.sections.filter (fun r => r._syncStatus != .synced)
  { dbs with
    tasks := bulkPut LocalTask.id tasks1 (data.tasks.map (Task.toLocalSynced · now))
    projects := bulkPut LocalProject.id projects1
      (data.projects.map (Project.toLocalSynced · now))
    tags := bulkPut Tag.id [] data.tags
    sections := bulkPut LocalSection.id sections1
      (data.sections.map (Section.toLocalSynced · now))
    lastSync := some now }

/-- `addToSyncQueue` (`src/db/index.ts` lines 115-121): append a queue item
with `createdAt = now`, `attempts = 0`, under the next auto-increment id. -/
def addToSyncQueue (dbs : DB) (type : QueueOp) (table : TableName) (recordId : String)
    (localId : Option String) (payload : PTask) (now : Nat) : DB :=
  { dbs with
    syncQueue := dbs.syncQueue ++
      [{ id := dbs.nextQueueId, type := type, table := table, recordId := recordId,
         localId := localId, payload := payload, createdAt := now, attempts := 0,
         lastError := none }]
    nextQueueId := dbs.nextQueueId + 1 }

/-- The IndexedDB index order used by `orderBy('createdAt')`: ascending
`createdAt`, ties broken by the primary key. -/
def queueLE (a b : SyncQueueItem) : Prop :=
  a.createdAt < b.createdAt ∨ (a.createdAt = b.createdAt ∧ a.id ≤ b.id)

instance : DecidableRel queueLE := fun a b =>
  inferInstanceAs (Decidable (a.createdAt < b.createdAt ∨
    (a.createdAt = b.createdAt ∧ a.id ≤ b.id)))

/-- `getPendingSyncItems` (`src/db/index.ts` lines 126-128): a snapshot of
the queue ordered by `createdAt`. -/
def getPendingSyncItems (q : List SyncQueueItem) : List SyncQueueItem :=
  List.insertionSort queueLE q

/-- `removeSyncQueueItem` (`src/db/index.ts` lines 133-135): delete the
queue row with the given primary key; deleting an absent key is a no-op. -/
def removeSyncQueueItem (q : List SyncQueueItem) (i : Nat) : List SyncQueueItem :=
  q.filter (fun x => x.id != i)

/-- The `Partial<SyncQueueItem>` shape actually passed to
`updateSyncQueueItem` by its one caller (`attempts` and `lastError`). -/
structure SyncQueueItemUpdates where
  attempts : Option Nat := none
  lastError : Option String := none
deriving DecidableEq, Repr

/-- Merge a partial update into a queue row (Dexie `update` key-wise
assignment). -/
def applyQueueItemUpdates (x : SyncQueueItem) (u : SyncQueueItemUpdates) : SyncQueueItem :=
  { x with attempts := u.attempts.getD x.attempts,
           lastError := ov u.lastError x.lastError }

/-- `updateSyncQueueItem` (`src/db/index.ts` lines 140-142): merge the given
fields into the queue row with the given id; a no-op on an absent id. -/
def updateSyncQueueItem (q : List SyncQueueItem) (i : Nat) (u : SyncQueueItemUpdates) :
    List SyncQueueItem :=
  q.map (fun x => if x.id == i then applyQueueItemUpdates x u else x)

/-- The `localTask` literal built by `createTaskLocally` (`src/db/index.ts`
lines 155-180): the payload's fields with JS `||` defaults, the freshly
minted local id, and `pending` sync metadata.  Every domain key is present
on this object. -/
def mkLocalTask (task : PTask) (localId : String) (now : Nat) : LocalTask where
  id := localId
  fields :=
    { name := some (jsOrStr task.name "")
      status := some (some (jsOrNStr task.status "📥 Inbox"))
      priority := some (jsOrNullStr task.priority)
      startDate := some (jsOrNullStr task.startDate)
      dueDate := some (jsOrNullStr task.dueDate)
      completedDate := some (jsOrNullStr task.completedDate)
      projectId := some (jsOrNullStr task.projectId)
      projectName := none
      tagIds := some (task.tagIds.getD [])
      tagNames := none
      parentTaskId := some (jsOrNullStr task.parentTaskId)
      subtaskIds := some []
      sectionId := some (jsOrNullStr task.sectionId)
      notes := some (jsOrStr task.notes "")
      syncToCalendar := some (task.syncToCalendar.getD false)
      scheduledTime := some (jsOrNullStr task.scheduledTime)
      duration := some (jsOrNullStr task.duration)
      calendarEventId := some none
      calendarSyncStatus := some none
      plannedEffort := some (jsOrNullNum task.plannedEffort)
      actualEffort := some (jsOrNullNum task.actualEffort) }
  _localId := some localId
  _syncStatus := .pending
  _modifiedAt := now
  _createdAt := some now

/-- `createTaskLocally` (`src/db/index.ts` lines 151-194): add the local
task row (Dexie `add`, which faults on a duplicate key — the source mints a
fresh random `localId`), then enqueue a CREATE item whose `recordId` and
`localId` are both the temporary id and whose payload is the raw `task`
argument. -/
def createTaskLocally (dbs : DB) (task : PTask) (localId : String) (now : Nat) :
    Option DB :=
  match tableAdd LocalTask.id dbs.tasks (mkLocalTask task localId now) with
  | none => none
  | some tasks1 =>
      some (addToSyncQueue { dbs with tasks := tasks1 }
        .CREATE .tasks localId (some localId) task now)

/-- `updateTaskLocally` (`src/db/index.ts` lines 199-215): merge the updates
into the task row (marking it `pending`; a no-op when the id is absent),
then unconditionally enqueue an UPDATE item whose `recordId` is the given
task id and whose payload is the updates object (no `localId` key). -/
def updateTaskLocally (dbs : DB) (taskId : String) (updates : PTask) (now : Nat) : DB :=
  let dbs1 := { dbs with
    tasks := tableUpdate LocalTask.id dbs.tasks taskId (fun t =>
      { t with fields := mergePTask t.fields updates,
               _syncStatus := .pending, _modifiedAt := now }) }
  addToSyncQueue dbs1 .UPDATE .tasks taskId none updates now

/-- `deleteTaskLocally` (`src/db/index.ts` lines 220-245).  When the row
exists with a truthy `_localId` and `pending` status (a never-synced local
creation), delete the row and every queue item whose `localId` equals the
task id, touching nothing else.  Otherwise mark the row pending, enqueue a
DELETE item, and delete the row.  This function lives in the db module,
which never issues Remote Gateway calls, so its call list is empty in every
branch. -/
def deleteTaskLocally (dbs : DB) (taskId : String) (now : Nat) : DB × List Unit :=
  let task := dbs.tasks.find? (fun r => r.id == taskId)
  let isLocalPending :=
    match task with
    | some t => jsTruthyStr t._localId && (t._syncStatus == SyncStatus.pending)
    | none => false
  if isLocalPending then
    ({ dbs with
       tasks := tableDelete LocalTask.id dbs.tasks taskId
       syncQueue := dbs.syncQueue.filter (fun q => q.localId != some taskId) }, [])
  else
    let dbs1 := { dbs with
      tasks := tableUpdate LocalTask.id dbs.tasks taskId (fun t =>
        { t with _syncStatus := .pending, _modifiedAt := now }) }
    let dbs2 := addToSyncQueue dbs1 .DELETE .tasks taskId none PTask.empty now
    ({ dbs2 with tasks := tableDelete LocalTask.id dbs2.tasks taskId }, [])

/-! ## `src/store/index.ts` — the Zustand store

The Remote Gateway (`src/api/airtable.ts`) is an external HTTP boundary.  It
is modelled as an oracle: each outgoing call either succeeds (a CREATE call
returning the remote-issued record id) or throws with a message.  Every
issued call is recorded as a `GatewayCall` so theorems can speak about which
remote operations were attempted, with which ids, and in which order. -/

/-- An outgoing Remote Gateway call, as dispatched by the store. -/
inductive GatewayCall
  | createTask (payload : PTask)
  | updateTask (recordId : String) (payload : PTask)
  | deleteTask (recordId : String)
deriving DecidableEq, Repr

/-- The oracle outcome of one Gateway call: success (carrying the
remote-issued id, meaningful for CREATE calls) or a thrown error. -/
inductive RemoteOutcome
  | success (newId : String)
  | failure (msg : String)
deriving DecidableEq, Repr

/-- The Gateway call the `switch` of `syncPendingChanges` dispatches for a
queue item (`src/store/index.ts` lines 398-424): tasks items dispatch their
operation; items of other tables fall through the `switch` without any
remote call. -/
def dispatchCall (item : SyncQueueItem) : Option GatewayCall :=
  match item.type, item.table with
  | .CREATE, .tasks => some (.createTask item.payload)
  | .UPDATE, .tasks => some (.updateTask item.recordId item.payload)
  | .DELETE, .tasks => some (.deleteTask item.recordId)
  | _, _ => none

/-- One iteration of the `for` loop of `syncPendingChanges`
(`src/store/index.ts` lines 396-435).  On success of a tasks CREATE the
local row under the temporary id (`item.localId!`, asserted present) is
deleted and a row rebuilt from the queue payload is `put` under the
remote-issued id with `_syncStatus: 'synced'`; every successful item (and
every non-tasks item, whose `switch` arm is empty and cannot throw) is then
removed from the queue.  A thrown Gateway call is caught: the item's
`attempts` is bumped and the message stored in `lastError`, and the loop
moves on. -/
def processItem (dbs : DB) (item : SyncQueueItem) (outcome : RemoteOutcome) (now : Nat) :
    DB × List GatewayCall :=
  match item.type, item.table with
  | .CREATE, .tasks =>
      match outcome with
      | .success newId =>
          let tasks1 := tableDelete LocalTask.id dbs.tasks (item.localId.getD "")
          let row : LocalTask :=
            { id := newId, fields := item.payload, _localId := none,
              _syncStatus := .synced, _modifiedAt := now, _createdAt := none }
          ({ dbs with
             tasks := tablePut LocalTask.id tasks1 row
             syncQueue := removeSyncQueueItem dbs.syncQueue item.id },
           [.createTask item.payload])
      | .failure msg =>
          ({ dbs with
             syncQueue := updateSyncQueueItem dbs.syncQueue item.id
               { attempts := some (item.attempts + 1), lastError := some msg } },
           [.createTask item.payload])
  | .UPDATE, .tasks =>
      match outcome with
      | .success _ =>
          ({ dbs with syncQueue := removeSyncQueueItem dbs.syncQueue item.id },
           [.updateTask item.recordId item.payload])
      | .failure msg =>
          ({ dbs with
             syncQueue := updateSyncQueueItem dbs.syncQueue item.id
               { attempts := some (item.attempts + 1), lastError := some msg } },
           [.updateTask item.recordId item.payload])
  | .DELETE, .tasks =>
      match outcome with
      | .success _ =>
          ({ dbs with syncQueue := removeSyncQueueItem dbs.syncQueue item.id },
           [.deleteTask item.recordId])
      | .failure msg =>
          ({ dbs with
             syncQueue := updateSyncQueueItem dbs.syncQueue item.id
               { attempts := some (item.attempts + 1), lastError := some msg } },
           [.deleteTask item.recordId])
  | _, _ =>
      ({ dbs with syncQueue := removeSyncQueueItem dbs.syncQueue item.id }, [])

/-- Run the loop body over the drained snapshot, one item at a time in
order, feeding each item the oracle outcome of its own Gateway call
(`outcomes (base + position)`); returns the final local store plus the
concatenated Gateway calls in dispatch order. -/
def runItems (dbs : DB) (items : List SyncQueueItem) (outcomes : Nat → RemoteOutcome)
    (base : Nat) (now : Nat) : DB × List GatewayCall :=
  match items with
  | [] => (dbs, [])
  | item :: rest =>
      let step := processItem dbs item (outcomes base) now
      let next := runItems step.1 rest outcomes (base + 1) now
      (next.1, step.2 ++ next.2)

/-- The drain phase of `syncPendingChanges` (`src/store/index.ts` lines
393-435): take the ordered snapshot `getPendingSyncItems()` once and process
it sequentially.  The `!isOnline` early return that precedes this drain is
modelled by `syncRunStarts`, and the trailing `fetchAllData()` refresh by
`saveAllToLocal`. -/
def syncPendingChanges (dbs : DB) (outcomes : Nat → RemoteOutcome) (now : Nat) :
    DB × List GatewayCall :=
  runItems dbs (getPendingSyncItems dbs.syncQueue) outcomes 0 now

/-- The store's connectivity/sync flags relevant to run scheduling. -/
structure SyncFlags where
  isOnline : Bool
  isSyncing : Bool
deriving DecidableEq, Repr

/-- `setOnlineStatus` (`src/store/index.ts` lines 450-460): record the new
flag; on an OFFLINE → ONLINE transition immediately invoke
`syncPendingChanges` (the Bool result records whether the call is made).
`isSyncing` is neither consulted nor changed here. -/
def setOnlineStatus (s : SyncFlags) (online : Bool) : SyncFlags × Bool :=
  ({ s with isOnline := online }, online && !s.isOnline)

/-- The only early-return guard at the top of `syncPendingChanges`
(`src/store/index.ts` lines 386-389): the run proceeds exactly when
`isOnline` is set; `isSyncing` is not checked. -/
def syncRunStarts (s : SyncFlags) : Bool :=
  s.isOnline

/-! ### Optimistic mutation entry points (online branch)

Each function below is the online branch of the corresponding store action,
projected onto the in-memory `tasks` collection.  The first component of the
result is the collection at the moment the Gateway call is awaited (i.e.
after whatever the action did to memory before calling out), the second is
the final collection after the response or catch block. -/

/-- `createTask` (`src/store/index.ts` lines 244-268), online branch: the
Gateway is called first; only on success is the returned task appended to
memory, and the catch block leaves memory untouched. -/
def createTask (tasks : List Task) (apiResult : Except String Task) :
    List Task × List Task :=
  match apiResult with
  | .ok newTask => (tasks, tasks ++ [newTask])
  | .error _ => (tasks, tasks)

/-- `updateTask` (`src/store/index.ts` lines 271-294), online branch: the
merge is applied to memory first (optimistic), then the Gateway is called;
the catch block restores the captured pre-mutation `tasks` snapshot. -/
def updateTask (tasks : List Task) (taskId : String) (updates : PTask)
    (apiResult : Except String Unit) : List Task × List Task :=
  let updatedTasks := tasks.map (fun t => if t.id == taskId then mergeTask t updates else t)
  match apiResult with
  | .ok _ => (updatedTasks, updatedTasks)
  | .error _ => (updatedTasks, tasks)

/-- `deleteTask` (`src/store/index.ts` lines 297-318), online branch: the
row is filtered out of memory first (optimistic), then the Gateway is
called; the catch block restores the captured snapshot. -/
def deleteTask (tasks : List Task) (taskId : String)
    (apiResult : Except String Unit) : List Task × List Task :=
  let filteredTasks := tasks.filter (fun t => t.id != taskId)
  match apiResult with
  | .ok _ => (filteredTasks, filteredTasks)
  | .error _ => (filteredTasks, tasks)

/-! ## `src/components/SyncStatusIndicator.tsx` — the sync state function -/

/-- The `SyncState` union type. -/
inductive SyncState
  | synced
  | syncing
  | offline
  | pending
  | error
deriving DecidableEq, Repr

/-- `getSyncState` (`src/components/SyncStatusIndicator.tsx` lines 31-37):
a pure function of the observable fields, consulted in the source order
`isOnline`, `syncError`, `isSyncing`, `pendingCount`.  `syncError` is a
`string | null`, so JS truthiness applies. -/
def getSyncState (isOnline : Bool) (syncError : Option String) (isSyncing : Bool)
    (pendingCount : Nat) : SyncState :=
  if !isOnline then .offline
  else if jsTruthyStr syncError then .error
  else if isSyncing then .syncing
  else if pendingCount > 0 then .pending
  else .synced

/-- Modelled from the spec: the sync state computed from `{isOnline,
isSyncing, pendingCount, syncError}` "in that precedence order", i.e.
consulting `isSyncing` before `pendingCount` before `syncError`, as the
claim's sentence lists the fields.  Used only to compare against the
source's `getSyncState`. -/
def getSyncStateSpecOrder (isOnline : Bool) (syncError : Option String) (isSyncing : Bool)
    (pendingCount : Nat) : SyncState :=
  if !isOnline then .offline
  else if isSyncing then .syncing
  else if pendingCount > 0 then .pending
  else if jsTruthyStr syncError then .error
  else .synced

/-! ## Helper lemmas about the table primitives -/

section TableLemmas

variable {α : Type} (key : α → String)

theorem mem_tablePut_of_ne {tbl : List α} {r t : α} (hr : r ∈ tbl)
    (hne : key r ≠ key t) : r ∈ tablePut key tbl t := by
  unfold tablePut
  split
  · exact List.mem_map.mpr ⟨r, hr, by simp [hne]⟩
  · exact List.mem_append_left _ hr

theorem mem_of_mem_tablePut {tbl : List α} {r t : α} (h : r ∈ tablePut key tbl t) :
    r ∈ tbl ∨ r = t := by
  unfold tablePut at h
  split at h
  · obtain ⟨x, hx, hxe⟩ := List.mem_map.mp h
    by_cases hxk : key x = key t
    · simp only [hxk, beq_self_eq_true, if_true] at hxe
      exact Or.inr hxe.symm
    · simp only [beq_eq_false_iff_ne.mpr hxk, Bool.false_eq_true, if_false] at hxe
      exact Or.inl (hxe ▸ hx)
  · rcases List.mem_append.mp h with h1 | h2
    · exact Or.inl h1
    · exact Or.inr (List.mem_singleton.mp h2)

theorem eq_of_mem_tablePut_keyEq {tbl : List α} {r t : α} (h : r ∈ tablePut key tbl t)
    (hk : key r = key t) : r = t := by
  unfold tablePut at h
  split at h
  · obtain ⟨x, hx, hxe⟩ := List.mem_map.mp h
    by_cases hxk : key x = key t
    · simp only [hxk, beq_self_eq_true, if_true] at hxe
      exact hxe.symm
    · simp only [beq_eq_false_iff_ne.mpr hxk, Bool.false_eq_true, if_false] at hxe
      exact absurd (hxe ▸ hk) hxk
  · rcases List.mem_append.mp h with h1 | h2
    · rename_i hany
      exact absurd (List.any_eq_true.mpr ⟨r, h1, by simp [hk]⟩) hany
    · exact List.mem_singleton.mp h2

theorem mem_bulkPut_of_not_mem_keys {tbl news : List α} {r : α} (hr : r ∈ tbl)
    (hk : key r ∉ news.map key) : r ∈ bulkPut key tbl news := by
  induction news generalizing tbl with
  | nil => exact hr
  | cons n rest ih =>
      simp only [List.map_cons, List.mem_cons, not_or] at hk
      exact ih (mem_tablePut_of_ne key hr hk.1) hk.2

theorem mem_of_mem_bulkPut {tbl news : List α} {r : α}
    (h : r ∈ bulkPut key tbl news) : r ∈ tbl ∨ r ∈ news := by
  induction news generalizing tbl with
  | nil => exact Or.inl h
  | cons n rest ih =>
      rcases ih h with h1 | h2
      · rcases mem_of_mem_tablePut key h1 with h3 | h4
        · exact Or.inl h3
        · exact Or.inr (h4 ▸ List.mem_cons_self n rest)
      · exact Or.inr (List.mem_cons_of_mem n h2)

theorem keyCount_eq_count (tbl : List α) (k : String) :
    keyCount key tbl k = (tbl.map key).count k := by
  unfold keyCount
  rw [List.count, List.countP_map]
  rfl

theorem keyCount_le_one_of_nodup (tbl : List α) (hnd : (tbl.map key).Nodup) (k : String) :
    keyCount key tbl k ≤ 1 := by
  rw [keyCount_eq_count]
  exact List.nodup_iff_count_le_one.mp hnd k

theorem keyCount_tablePut_self (tbl : List α) (t : α)
    (hle : keyCount key tbl (key t) ≤ 1) :
    keyCount key (tablePut key tbl t) (key t) = 1 := by
  unfold tablePut
  split
  · rename_i hany
    have h1 : 0 < keyCount key tbl (key t) := by
      obtain ⟨x, hx, hxk⟩ := List.any_eq_true.mp hany
      exact List.countP_pos_iff.mpr ⟨x, hx, hxk⟩
    have heq : keyCount key (tbl.map fun r => if key r == key t then t else r) (key t) =
        keyCount key tbl (key t) := by
      unfold keyCount
      rw [List.countP_map]
      congr 1
      funext x
      by_cases hxk : key x = key t <;> simp [Function.comp, hxk]
    rw [heq]
    omega
  · rename_i hany
    unfold keyCount
    rw [List.countP_append]
    have h0 : tbl.countP (fun r => key r == key t) = 0 := by
      rw [List.countP_eq_zero]
      intro x hx hpx
      exact hany (List.any_eq_true.mpr ⟨x, hx, hpx⟩)
    simp [h0]

end TableLemmas

/-! ## Helper lemmas about the sync queue and the reconciliation loop -/

theorem mem_removeSyncQueueItem_of_ne {q : List SyncQueueItem} {x : SyncQueueItem}
    {i : Nat} (hx : x ∈ q) (hne : x.id ≠ i) : x ∈ removeSyncQueueItem q i :=
  List.mem_filter.mpr ⟨hx, by simpa using hne⟩

theorem mem_updateSyncQueueItem_of_ne {q : List SyncQueueItem} {x : SyncQueueItem}
    {i : Nat} (u : SyncQueueItemUpdates) (hx : x ∈ q) (hne : x.id ≠ i) :
    x ∈ updateSyncQueueItem q i u :=
  List.mem_map.mpr ⟨x, hx, by simp [beq_eq_false_iff_ne.mpr hne]⟩

theorem mem_updateSyncQueueItem_self {q : List SyncQueueItem} {x : SyncQueueItem}
    (u : SyncQueueItemUpdates) (hx : x ∈ q) :
    applyQueueItemUpdates x u ∈ updateSyncQueueItem q x.id u :=
  List.mem_map.mpr ⟨x, hx, by simp⟩

theorem processItem_calls (dbs : DB) (item : SyncQueueItem) (o : RemoteOutcome)
    (now : Nat) : (processItem dbs item o now).2 = (dispatchCall item).toList := by
  obtain ⟨i, ty, tb, rid, lid, pl, ca, att, le⟩ := item
  cases ty <;> cases tb <;> cases o <;> rfl

theorem processItem_fail_syncQueue (dbs : DB) (item : SyncQueueItem) (msg : String)
    (now : Nat) (htab : item.table = .tasks) :
    (processItem dbs item (.failure msg) now).1.syncQueue =
      updateSyncQueueItem dbs.syncQueue item.id
        { attempts := some (item.attempts + 1), lastError := some msg } := by
  obtain ⟨i, ty, tb, rid, lid, pl, ca, att, le⟩ := item
  cases ty <;> cases tb <;> first
    | rfl
    | exact absurd htab (by simp)

theorem processItem_preserves_other (dbs : DB) (item : SyncQueueItem)
    (o : RemoteOutcome) (now : Nat) {x : SyncQueueItem} (hx : x ∈ dbs.syncQueue)
    (hne : x.id ≠ item.id) : x ∈ (processItem dbs item o now).1.syncQueue := by
  obtain ⟨i, ty, tb, rid, lid, pl, ca, att, le⟩ := item
  cases ty <;> cases tb <;> cases o <;>
    first
      | exact mem_removeSyncQueueItem_of_ne hx hne
      | exact mem_updateSyncQueueItem_of_ne _ hx hne

theorem runItems_cons (dbs : DB) (item : SyncQueueItem) (rest : List SyncQueueItem)
    (outcomes : Nat → RemoteOutcome) (base now : Nat) :
    runItems dbs (item :: rest) outcomes base now =
      ((runItems (processItem dbs item (outcomes base) now).1 rest outcomes
          (base + 1) now).1,
       (processItem dbs item (outcomes base) now).2 ++
         (runItems (processItem dbs item (outcomes base) now).1 rest outcomes
           (base + 1) now).2) := rfl

theorem runItems_calls (outcomes : Nat → RemoteOutcome) (now : Nat)
    (items : List SyncQueueItem) :
    ∀ (dbs : DB) (base : Nat),
      (runItems dbs items outcomes base now).2 = items.filterMap dispatchCall := by
  induction items with
  | nil => intro dbs base; rfl
  | cons it0 rest ih =>
      intro dbs base
      rw [runItems_cons]
      simp only [processItem_calls, ih, List.filterMap_cons]
      cases dispatchCall it0 <;> simp

theorem runItems_preserves (outcomes : Nat → RemoteOutcome) (now : Nat)
    {x : SyncQueueItem} (items : List SyncQueueItem) :
    ∀ (dbs : DB) (base : Nat), x ∈ dbs.syncQueue →
      (∀ it ∈ items, it.id ≠ x.id) →
      x ∈ (runItems dbs items outcomes base now).1.syncQueue := by
  induction items with
  | nil => intro dbs base hx _; exact hx
  | cons it0 rest ih =>
      intro dbs base hx hall
      rw [runItems_cons]
      exact ih _ _
        (processItem_preserves_other dbs it0 (outcomes base) now hx
          (Ne.symm (hall it0 (List.mem_cons_self it0 rest))))
        (fun it hit => hall it (List.mem_cons_of_mem _ hit))

theorem runItems_fail_mem (outcomes : Nat → RemoteOutcome) (now : Nat) (msg : String)
    (items : List SyncQueueItem) :
    ∀ (dbs : DB) (base k : Nat) (item : SyncQueueItem),
      (items.map (fun y => y.id)).Nodup →
      items.get? k = some item →
      item ∈ dbs.syncQueue →
      item.table = .tasks →
      outcomes (base + k) = .failure msg →
      { item with attempts := item.attempts + 1, lastError := some msg } ∈
        (runItems dbs items outcomes base now).1.syncQueue := by
  induction items with
  | nil => intro dbs base k item _ hget _ _ _; simp at hget
  | cons it0 rest ih =>
      intro dbs base k item hnd hget hmem htab hfail
      rw [List.map_cons] at hnd
      have hnd2 := List.nodup_cons.mp hnd
      cases k with
      | zero =>
          have hfi : it0 = item := by simpa using hget
          subst hfi
          rw [runItems_cons]
          have hout : outcomes base = RemoteOutcome.failure msg := by simpa using hfail
          have h1 : { it0 with attempts := it0.attempts + 1, lastError := some msg } ∈
              (processItem dbs it0 (outcomes base) now).1.syncQueue := by
            rw [hout, processItem_fail_syncQueue dbs it0 msg now htab]
            have h2 := mem_updateSyncQueueItem_self
              { attempts := some (it0.attempts + 1), lastError := some msg } hmem
            simpa [applyQueueItemUpdates, ov] using h2
          refine runItems_preserves outcomes now rest _ (base + 1) h1 ?_
          intro it hit heq
          exact hnd2.1 (heq ▸ List.mem_map_of_mem (fun y => y.id) hit)
      | succ k2 =>
          have hget2 : rest.get? k2 = some item := by simpa using hget
          have hmem2 : item ∈ rest := List.get?_mem hget2
          have hne : it0.id ≠ item.id := by
            intro he
            exact hnd2.1 (he ▸ List.mem_map_of_mem (fun y => y.id) hmem2)
          rw [runItems_cons]
          refine ih (processItem dbs it0 (outcomes base) now).1 (base + 1) k2 item
            hnd2.2 hget2
            (processItem_preserves_other dbs it0 (outcomes base) now hmem (Ne.symm hne))
            htab ?_
          rw [show base + 1 + k2 = base + (k2 + 1) from by omega]
          exact hfail

/-! ## Claims -/

/-- C9: acking a queue item id twice has the same observable effect on the
queue as acking it once; `removeSyncQueueItem` applied to an id that is
absent from the queue (including one already removed) is a no-op. -/
theorem C9_idempotent_ack (q : List SyncQueueItem) (i : Nat) :
    removeSyncQueueItem (removeSyncQueueItem q i) i = removeSyncQueueItem q i
    ∧ ((∀ x ∈ q, x.id ≠ i) → removeSyncQueueItem q i = q) := by
  constructor
  · unfold removeSyncQueueItem
    rw [List.filter_filter]
    simp
  · intro h
    unfold removeSyncQueueItem
    rw [List.filter_eq_self]
    intro x hx
    simpa using h x hx

/-- Concrete queue item for the C9 witness. -/
def exC9item : SyncQueueItem :=
  { id := 1, type := .UPDATE, table := .tasks, recordId := "rec1", localId := none,
    payload := {}, createdAt := 10, attempts := 0, lastError := none }

/-- Witness for C9: removing the absent id 99 from a one-item queue leaves
it unchanged. -/
theorem C9_witness : removeSyncQueueItem [exC9item] 99 = [exC9item] :=
  (C9_idempotent_ack [exC9item] 99).2 (by decide)

/-- C10: for a `taskId` not present in the tasks table, `updateTaskLocally`
leaves the tasks table unchanged yet still appends an UPDATE queue item
whose `recordId` is `taskId`, so the resulting queue item has no
corresponding entity row. -/
theorem C10_update_absent_task (dbs : DB) (taskId : String) (updates : PTask)
    (now : Nat) (habsent : ∀ r ∈ dbs.tasks, r.id ≠ taskId) :
    (updateTaskLocally dbs taskId updates now).tasks = dbs.tasks
    ∧ (updateTaskLocally dbs taskId updates now).syncQueue =
        dbs.syncQueue ++
          [{ id := dbs.nextQueueId, type := .UPDATE, table := .tasks,
             recordId := taskId, localId := none, payload := updates,
             createdAt := now, attempts := 0, lastError := none }]
    ∧ (∀ r ∈ (updateTaskLocally dbs taskId updates now).tasks, r.id ≠ taskId) := by
  have htasks : (updateTaskLocally dbs taskId updates now).tasks = dbs.tasks := by
    simp only [updateTaskLocally, addToSyncQueue, tableUpdate]
    conv_rhs => rw [← List.map_id dbs.tasks]
    apply List.map_congr_left
    intro r hr
    simp [beq_eq_false_iff_ne.mpr (habsent r hr)]
  refine ⟨htasks, rfl, ?_⟩
  rw [htasks]
  exact habsent

/-- Empty local store used by witnesses. -/
def emptyDB : DB :=
  { tasks := [], projects := [], tags := [], sections := [], syncQueue := [],
    nextQueueId := 1, lastSync := none }

/-- Witness for C10: updating a task id in an empty store leaves the tasks
table empty while enqueueing the UPDATE item. -/
theorem C10_witness :
    (updateTaskLocally emptyDB "recX" { notes := some "n" } 5).tasks = emptyDB.tasks :=
  (C10_update_absent_task emptyDB "recX" { notes := some "n" } 5 (by decide)).1

/-- Counterexample for C7: with `isOnline = true`, a non-empty `syncError`
and `isSyncing = true`, the source's `getSyncState` yields `error`, while
the precedence order stated by the claim (isOnline, isSyncing, pendingCount,
syncError) would yield `syncing`. -/
theorem C7_counterexample :
    getSyncState true (some "boom") true 0 = SyncState.error
    ∧ getSyncStateSpecOrder true (some "boom") true 0 = SyncState.syncing
    ∧ SyncState.error ≠ SyncState.syncing := by
  refine ⟨rfl, rfl, by decide⟩

/-- C7 (amended): the user-visible sync state is a pure function of
`{isOnline, syncError, isSyncing, pendingCount}` computed in THAT precedence
order — `isOnline` first, then `syncError`, then `isSyncing`, then
`pendingCount` — yielding one of synced, syncing, offline, pending, error. -/
theorem C7_precedence (isOnline : Bool) (syncError : Option String)
    (isSyncing : Bool) (pendingCount : Nat) :
    (isOnline = false →
      getSyncState isOnline syncError isSyncing pendingCount = .offline)
    ∧ (isOnline = true → jsTruthyStr syncError = true →
      getSyncState isOnline syncError isSyncing pendingCount = .error)
    ∧ (isOnline = true → jsTruthyStr syncError = false → isSyncing = true →
      getSyncState isOnline syncError isSyncing pendingCount = .syncing)
    ∧ (isOnline = true → jsTruthyStr syncError = false → isSyncing = false →
      0 < pendingCount →
      getSyncState isOnline syncError isSyncing pendingCount = .pending)
    ∧ (isOnline = true → jsTruthyStr syncError = false → isSyncing = false →
      pendingCount = 0 →
      getSyncState isOnline syncError isSyncing pendingCount = .synced) := by
  refine ⟨?_, ?_, ?_, ?_, ?_⟩
  · intro h1; simp [getSyncState, h1]
  · intro h1 h2; simp [getSyncState, h1, h2]
  · intro h1 h2 h3; simp [getSyncState, h1, h2, h3]
  · intro h1 h2 h3 h4; simp [getSyncState, h1, h2, h3, h4]
  · intro h1 h2 h3 h4; simp [getSyncState, h1, h2, h3, h4]

/-- Witness for C7: offline wins regardless of the other fields. -/
theorem C7_witness : getSyncState false (some "boom") true 3 = SyncState.offline :=
  (C7_precedence false (some "boom") true 3).1 rfl

/-- Concrete task returned by the Gateway in the C4 counterexample. -/
def exC4task : Task :=
  { id := "rec9", name := "Buy milk", status := none, priority := none,
    startDate := none, dueDate := none, completedDate := none, projectId := none,
    projectName := none, tagIds := [], tagNames := none, parentTaskId := none,
    subtaskIds := [], sectionId := none, notes := "", syncToCalendar := false,
    scheduledTime := none, duration := none, calendarEventId := none,
    calendarSyncStatus := none, plannedEffort := none, actualEffort := none }

/-- Counterexample for C4: `createTask` is not optimistic.  At the moment the
Gateway call is awaited the in-memory collection is still the pre-mutation
`[]` (first component), although the mutation visibly changes the collection
(the success final state is `[exC4task] ≠ []`).  The claim's "applies the
mutation to the in-memory collection immediately, before the Remote Gateway
call" therefore fails for the `createTask` entry point. -/
theorem C4_counterexample :
    (createTask [] (.ok exC4task)).1 = []
    ∧ (createTask [] (.ok exC4task)).2 = [exC4task]
    ∧ ([] : List Task) ≠ [exC4task] := by
  refine ⟨rfl, rfl, by simp⟩

/-- C4 (amended): `updateTask` and `deleteTask` apply the mutation to the
in-memory collection before the Gateway call and, on failure, restore the
pre-mutation snapshot exactly; `createTask` issues the Gateway call first
(memory untouched at call time), appends the returned task only on success,
and therefore also leaves memory at the pre-mutation snapshot on failure. -/
theorem C4_optimistic_and_rollback (tasks : List Task) (taskId : String)
    (updates : PTask) (e : String) (r1 : Except String Unit)
    (r2 : Except String Task) :
    (updateTask tasks taskId updates r1).1 =
        tasks.map (fun t => if t.id == taskId then mergeTask t updates else t)
    ∧ (updateTask tasks taskId updates (.error e)).2 = tasks
    ∧ (deleteTask tasks taskId r1).1 = tasks.filter (fun t => t.id != taskId)
    ∧ (deleteTask tasks taskId (.error e)).2 = tasks
    ∧ (createTask tasks r2).1 = tasks
    ∧ (createTask tasks (.error e)).2 = tasks := by
  refine ⟨?_, rfl, ?_, rfl, ?_, rfl⟩
  · cases r1 <;> rfl
  · cases r1 <;> rfl
  · cases r2 <;> rfl

/-- C6: the code starts a second concurrent reconciliation run.  With a run
in progress (`isSyncing = true`) while the device is reported offline, the
OFFLINE → ONLINE transition immediately invokes `syncPendingChanges`
(second conjunct: the call is made), the invoked run's only early-return
guard (`syncRunStarts`, i.e. the `!isOnline` check) lets it proceed, and
`isSyncing` is still `true` — a second run starts while the first is in
progress, with no pending-rerun coalescing anywhere in the source. -/
theorem C6_code_bug_concurrent_run :
    (setOnlineStatus { isOnline := false, isSyncing := true } true).2 = true
    ∧ syncRunStarts (setOnlineStatus { isOnline := false, isSyncing := true } true).1
        = true
    ∧ (setOnlineStatus { isOnline := false, isSyncing := true } true).1.isSyncing
        = true := by
  refine ⟨rfl, rfl, rfl⟩

/-- Payload of the CREATE item in the C3 scenario. -/
def exC3createPayload : PTask := { name := some "Buy milk" }

/-- Payload of the dependent UPDATE item in the C3 scenario. -/
def exC3updatePayload : PTask := { notes := some "oat milk" }

/-- The never-synced local row in the C3 scenario. -/
def exC3local : LocalTask := mkLocalTask exC3createPayload "local_1" 100

/-- CREATE queue item for the C3 scenario (temporary id `local_1`). -/
def exC3createItem : SyncQueueItem :=
  { id := 1, type := .CREATE, table := .tasks, recordId := "local_1",
    localId := some "local_1", payload := exC3createPayload, createdAt := 100,
    attempts := 0, lastError := none }

/-- UPDATE queue item enqueued for the same entity before the CREATE was
acked; its `recordId` is the temporary id. -/
def exC3updateItem : SyncQueueItem :=
  { id := 2, type := .UPDATE, table := .tasks, recordId := "local_1",
    localId := none, payload := exC3updatePayload, createdAt := 150,
    attempts := 0, lastError := none }

/-- Local store for the C3 scenario: a CREATE for the entity followed by an
UPDATE for the same entity. -/
def exC3db : DB :=
  { tasks := [exC3local], projects := [], tags := [], sections := [],
    syncQueue := [exC3createItem, exC3updateItem], nextQueueId := 3,
    lastSync := none }

/-- Oracle for the C3 scenario: the CREATE call succeeds with remote id
`recA`; the subsequent UPDATE call (addressed to a nonexistent remote id)
fails. -/
def exC3outcomes : Nat → RemoteOutcome := fun k =>
  if k = 0 then .success "recA" else .failure "NOT_FOUND"

/-- C3: evaluation at the failing input.  The reconciliation run does
resolve the CREATE first — the local row's id is rewritten to `recA`
(second conjunct) before the UPDATE call is dispatched — but the UPDATE's
remote call still uses the stale temporary id `local_1` (first conjunct),
not the remote-issued `recA`, because queue items are never rewritten when
a CREATE resolves.  This contradicts the claim (and the spec's invariant
that UPDATE items reference the durable remote id). -/
theorem C3_update_uses_stale_id :
    (syncPendingChanges exC3db exC3outcomes 200).2 =
      [GatewayCall.createTask exC3createPayload,
       GatewayCall.updateTask "local_1" exC3updatePayload]
    ∧ (syncPendingChanges exC3db exC3outcomes 200).1.tasks.map (fun r => r.id) =
        ["recA"]
    ∧ "local_1" ≠ "recA" := by
  refine ⟨rfl, rfl, by decide⟩

/-- C5: deleting an entity whose `_syncStatus` is `pending`, whose
`_localId` is its own (temporary) id, and whose only queue item referencing
it is its own CREATE (the item carrying `localId = taskId`), removes both
the entity row and that queue item, preserves every other row and queue
item, and makes zero Remote Gateway calls. -/
theorem C5_offline_delete_never_synced (dbs : DB) (taskId : String) (now : Nat)
    (t : LocalTask) (cItem : SyncQueueItem)
    (hfind : dbs.tasks.find? (fun r => r.id == taskId) = some t)
    (hlid : t._localId = some taskId)
    (htid : taskId ≠ "")
    (hpend : t._syncStatus = .pending)
    (hcT : cItem.type = .CREATE)
    (hcL : cItem.localId = some taskId)
    (honly : ∀ q ∈ dbs.syncQueue,
      q.recordId = taskId ∨ q.localId = some taskId → q = cItem) :
    (∀ r ∈ (deleteTaskLocally dbs taskId now).1.tasks, r.id ≠ taskId)
    ∧ cItem ∉ (deleteTaskLocally dbs taskId now).1.syncQueue
    ∧ (∀ q ∈ (deleteTaskLocally dbs taskId now).1.syncQueue,
        q.recordId ≠ taskId ∧ q.localId ≠ some taskId)
    ∧ (∀ r ∈ dbs.tasks, r.id ≠ taskId →
        r ∈ (deleteTaskLocally dbs taskId now).1.tasks)
    ∧ (∀ q ∈ dbs.syncQueue, q.localId ≠ some taskId →
        q ∈ (deleteTaskLocally dbs taskId now).1.syncQueue)
    ∧ (deleteTaskLocally dbs taskId now).2 = [] := by
  have hguard : deleteTaskLocally dbs taskId now =
      ({ dbs with
         tasks := tableDelete LocalTask.id dbs.tasks taskId
         syncQueue := dbs.syncQueue.filter (fun q => q.localId != some taskId) },
       []) := by
    unfold deleteTaskLocally
    rw [hfind]
    simp [hlid, hpend, jsTruthyStr, htid]
  rw [hguard]
  refine ⟨?_, ?_, ?_, ?_, ?_, rfl⟩
  · intro r hr
    have h2 : r ∈ dbs.tasks ∧ ¬r.id = taskId := by simpa [tableDelete] using hr
    exact h2.2
  · intro hmem
    have h2 := (List.mem_filter.mp hmem).2
    rw [hcL] at h2
    simp at h2
  · intro q hq
    have h1 := List.mem_filter.mp hq
    have hqloc : q.localId ≠ some taskId := by simpa using h1.2
    refine ⟨?_, hqloc⟩
    intro hrec
    exact hqloc ((honly q h1.1 (Or.inl hrec)) ▸ hcL)
  · intro r hr hne
    exact List.mem_filter.mpr ⟨hr, by simpa using hne⟩
  · intro q hq hne
    exact List.mem_filter.mpr ⟨hq, by simpa using hne⟩

/-- Payload used by the C5 witness. -/
def exC5payload : PTask := { name := some "Call mom" }

/-- The never-synced local row for the C5 witness. -/
def exC5local : LocalTask := mkLocalTask exC5payload "local_9" 100

/-- The CREATE queue item of the C5 witness entity. -/
def exC5item : SyncQueueItem :=
  { id := 4, type := .CREATE, table := .tasks, recordId := "local_9",
    localId := some "local_9", payload := exC5payload, createdAt := 100,
    attempts := 0, lastError := none }

/-- Local store for the C5 witness. -/
def exC5db : DB :=
  { tasks := [exC5local], projects := [], tags := [], sections := [],
    syncQueue := [exC5item], nextQueueId := 5, lastSync := none }

/-- Witness for C5: deleting the never-synced entity leaves no queue item
referencing it and makes no Gateway calls. -/
theorem C5_witness :
    exC5item ∉ (deleteTaskLocally exC5db "local_9" 300).1.syncQueue
    ∧ (deleteTaskLocally exC5db "local_9" 300).2 = [] := by
  exact ⟨(C5_offline_delete_never_synced exC5db "local_9" 300 exC5local exC5item
    (by decide) (by decide) (by decide) (by decide) (by decide) (by decide)
    (by decide)).2.1,
   (C5_offline_delete_never_synced exC5db "local_9" 300 exC5local exC5item
    (by decide) (by decide) (by decide) (by decide) (by decide) (by decide)
    (by decide)).2.2.2.2.2⟩

/-- Payload of the CREATE queue item in the C2 scenario (the raw
`Partial<Task>` argument of `createTask`: only `name` is present). -/
def exC2payload : PTask := { name := some "Buy milk" }

/-- The local entity as written by `createTaskLocally`: every domain key is
present, filled with defaults (`status = "📥 Inbox"`, `subtaskIds = []`,
`notes = ""`, ...). -/
def exC2local : LocalTask := mkLocalTask exC2payload "local_1" 100

/-- The CREATE queue item for the C2 scenario. -/
def exC2item : SyncQueueItem :=
  { id := 1, type := .CREATE, table := .tasks, recordId := "local_1",
    localId := some "local_1", payload := exC2payload, createdAt := 100,
    attempts := 0, lastError := none }

/-- Local store for the C2 scenario. -/
def exC2db : DB :=
  { tasks := [exC2local], projects := [], tags := [], sections := [],
    syncQueue := [exC2item], nextQueueId := 2, lastSync := none }

/-- Counterexample for C2: after the CREATE resolves with remote id `recA`,
the row stored under `recA` does NOT have all other fields unchanged from
the local entity: it is rebuilt from the queue payload, so its `status`
key is absent (`none`), whereas the local entity's status was the default
`"📥 Inbox"`.  (Likewise `_modifiedAt` moves from 100 to 200.) -/
theorem C2_counterexample :
    ((processItem exC2db exC2item (.success "recA") 200).1.tasks.find?
        (fun r => r.id == "recA")).map (fun r => r.fields.status) = some none
    ∧ exC2local.fields.status = some (some "📥 Inbox")
    ∧ ((processItem exC2db exC2item (.success "recA") 200).1.tasks.find?
        (fun r => r.id == "recA")).map (fun r => r._modifiedAt) = some 200
    ∧ exC2local._modifiedAt = 100 := by
  refine ⟨rfl, rfl, rfl, rfl⟩

/-- C2 (amended): when the Reconciliation Engine successfully resolves a
CREATE queue item, afterwards no entity row with the old temporary id
remains and exactly one row with the new remote id exists — but that row's
fields are exactly the queue item's payload (with `_syncStatus = synced`
and a fresh `_modifiedAt`), not the local entity's stored fields: keys the
local creation filled with defaults are not carried over.  The queue item
itself is removed. -/
theorem C2_id_rewrite (dbs : DB) (item : SyncQueueItem) (newId lid : String)
    (now : Nat)
    (htype : item.type = .CREATE) (htab : item.table = .tasks)
    (hlid : item.localId = some lid) (hne : newId ≠ lid)
    (hnd : (dbs.tasks.map (fun r => r.id)).Nodup) :
    (∀ r ∈ (processItem dbs item (.success newId) now).1.tasks, r.id ≠ lid)
    ∧ keyCount LocalTask.id (processItem dbs item (.success newId) now).1.tasks
        newId = 1
    ∧ (∀ r ∈ (processItem dbs item (.success newId) now).1.tasks, r.id = newId →
        r.fields = item.payload ∧ r._syncStatus = .synced ∧ r._modifiedAt = now
        ∧ r._localId = none ∧ r._createdAt = none)
    ∧ (processItem dbs item (.success newId) now).1.syncQueue =
        removeSyncQueueItem dbs.syncQueue item.id := by
  obtain ⟨i, ty, tb, rid, lid2, pl, ca, att, le⟩ := item
  simp only at htype htab hlid
  subst htype
  subst htab
  subst hlid
  refine ⟨?_, ?_, ?_, rfl⟩
  · intro r hr
    rcases mem_of_mem_tablePut LocalTask.id hr with h1 | h2
    · have h3 := (List.mem_filter.mp h1).2
      simpa using h3
    · rw [h2]
      exact hne
  · apply keyCount_tablePut_self
    apply keyCount_le_one_of_nodup
    exact hnd.sublist ((List.filter_sublist _).map _)
  · intro r hr hrid
    have h4 := eq_of_mem_tablePut_keyEq LocalTask.id hr hrid
    rw [h4]
    exact ⟨rfl, rfl, rfl, rfl, rfl⟩

/-- Witness for C2: at the concrete CREATE resolution, exactly one row with
the remote id `recA` exists afterwards. -/
theorem C2_witness :
    keyCount LocalTask.id
      (processItem exC2db exC2item (.success "recA") 200).1.tasks "recA" = 1 :=
  (C2_id_rewrite exC2db exC2item "recA" "local_1" 200 rfl rfl rfl (by decide)
    (by decide)).2.1

/-- C8: when the `k`-th item of the drained queue snapshot is a tasks item
whose remote operation fails, the drain leaves that item in the queue with
`attempts` incremented and the error recorded in `lastError`; and the list
of Gateway calls dispatched by the whole run is exactly the per-item
dispatch over the full snapshot, independent of any outcome — one item's
failure never aborts the drain of the remaining items. -/
theorem C8_fail_keeps_item_and_drain_continues (dbs : DB)
    (outcomes : Nat → RemoteOutcome) (now k : Nat) (item : SyncQueueItem)
    (msg : String)
    (hq : (dbs.syncQueue.map (fun y => y.id)).Nodup)
    (hget : (getPendingSyncItems dbs.syncQueue).get? k = some item)
    (htab : item.table = .tasks)
    (hfail : outcomes k = .failure msg) :
    ({ item with attempts := item.attempts + 1, lastError := some msg } ∈
        (syncPendingChanges dbs outcomes now).1.syncQueue)
    ∧ (syncPendingChanges dbs outcomes now).2 =
        (getPendingSyncItems dbs.syncQueue).filterMap dispatchCall := by
  have hperm : (getPendingSyncItems dbs.syncQueue).Perm dbs.syncQueue :=
    List.perm_insertionSort queueLE dbs.syncQueue
  have hnd : ((getPendingSyncItems dbs.syncQueue).map (fun y => y.id)).Nodup :=
    ((hperm.map (fun y => y.id)).nodup_iff).mpr hq
  have hmem : item ∈ dbs.syncQueue :=
    hperm.subset (List.get?_mem hget)
  constructor
  · exact runItems_fail_mem outcomes now msg (getPendingSyncItems dbs.syncQueue)
      dbs 0 k item hnd hget hmem htab (by simpa using hfail)
  · exact runItems_calls outcomes now (getPendingSyncItems dbs.syncQueue) dbs 0

/-- Queue item whose remote call fails in the C8 witness. -/
def exC8item : SyncQueueItem :=
  { id := 7, type := .UPDATE, table := .tasks, recordId := "rec1",
    localId := none, payload := { notes := some "x" }, createdAt := 10,
    attempts := 2, lastError := none }

/-- Local store for the C8 witness. -/
def exC8db : DB := { emptyDB with syncQueue := [exC8item] }

/-- Oracle for the C8 witness: every call fails with a 500. -/
def exC8outcomes : Nat → RemoteOutcome := fun _ => .failure "500"

/-- Witness for C8: the failed item stays queued with `attempts` bumped from
2 to 3 and the error recorded. -/
theorem C8_witness :
    { exC8item with attempts := exC8item.attempts + 1, lastError := some "500" } ∈
      (syncPendingChanges exC8db exC8outcomes 20).1.syncQueue :=
  (C8_fail_keeps_item_and_drain_continues exC8db exC8outcomes 20 0 exC8item "500"
    (by decide) (by decide) rfl rfl).1

/-- C1 (amended): in a full refetch-and-replace cycle (`saveAllToLocal`),
every task/project/section row whose `_syncStatus` is `pending` or `error`
AND whose id does not occur in the fetched set is still present and
unmodified afterwards; and every row present afterwards is either such a
preserved non-synced row or comes from the fetched set (so every previously
`synced` row has been replaced by the fetched data).  A `pending`/`error`
row whose id DOES occur in the fetched set is overwritten (see the
counterexample), which is the one correction to the claim. -/
theorem C1_refresh_preserves (dbs : DB) (data : FetchedData) (now : Nat) :
    (∀ r ∈ dbs.tasks, r._syncStatus ≠ .synced →
        r.id ∉ data.tasks.map (fun t => t.id) →
        r ∈ (saveAllToLocal dbs data now).tasks)
    ∧ (∀ r ∈ (saveAllToLocal dbs data now).tasks,
        (r ∈ dbs.tasks ∧ r._syncStatus ≠ .synced)
        ∨ ∃ t ∈ data.tasks, r = Task.toLocalSynced t now)
    ∧ (∀ r ∈ dbs.projects, r._syncStatus ≠ .synced →
        r.id ∉ data.projects.map (fun p => p.id) →
        r ∈ (saveAllToLocal dbs data now).projects)
    ∧ (∀ r ∈ (saveAllToLocal dbs data now).projects,
        (r ∈ dbs.projects ∧ r._syncStatus ≠ .synced)
        ∨ ∃ p ∈ data.projects, r = Project.toLocalSynced p now)
    ∧ (∀ r ∈ dbs.sections, r._syncStatus ≠ .synced →
        r.id ∉ data.sections.map (fun q => q.id) →
        r ∈ (saveAllToLocal dbs data now).sections)
    ∧ (∀ r ∈ (saveAllToLocal dbs data now).sections,
        (r ∈ dbs.sections ∧ r._syncStatus ≠ .synced)
        ∨ ∃ q ∈ data.sections, r = Section.toLocalSynced q now) := by
  simp only [saveAllToLocal]
  have hmt : (data.tasks.map (Task.toLocalSynced · now)).map LocalTask.id =
      data.tasks.map (fun t => t.id) := by
    rw [List.map_map]; rfl
  have hmp : (data.projects.map (Project.toLocalSynced · now)).map LocalProject.id =
      data.projects.map (fun p => p.id) := by
    rw [List.map_map]; rfl
  have hms : (data.sections.map (Section.toLocalSynced · now)).map LocalSection.id =
      data.sections.map (fun q => q.id) := by
    rw [List.map_map]; rfl
  refine ⟨?_, ?_, ?_, ?_, ?_, ?_⟩
  · intro r hr hst hid
    exact mem_bulkPut_of_not_mem_keys LocalTask.id
      (List.mem_filter.mpr ⟨hr, by simpa using hst⟩) (by rw [hmt]; exact hid)
  · intro r hr
    rcases mem_of_mem_bulkPut LocalTask.id hr with h1 | h2
    · have h3 := List.mem_filter.mp h1
      exact Or.inl ⟨h3.1, by simpa using h3.2⟩
    · obtain ⟨t, ht, hte⟩ := List.mem_map.mp h2
      exact Or.inr ⟨t, ht, hte.symm⟩
  · intro r hr hst hid
    exact mem_bulkPut_of_not_mem_keys LocalProject.id
      (List.mem_filter.mpr ⟨hr, by simpa using hst⟩) (by rw [hmp]; exact hid)
  · intro r hr
    rcases mem_of_mem_bulkPut LocalProject.id hr with h1 | h2
    · have h3 := List.mem_filter.mp h1
      exact Or.inl ⟨h3.1, by simpa using h3.2⟩
    · obtain ⟨p, hp, hpe⟩ := List.mem_map.mp h2
      exact Or.inr ⟨p, hp, hpe.symm⟩
  · intro r hr hst hid
    exact mem_bulkPut_of_not_mem_keys LocalSection.id
      (List.mem_filter.mpr ⟨hr, by simpa using hst⟩) (by rw [hms]; exact hid)
  · intro r hr
    rcases mem_of_mem_bulkPut LocalSection.id hr with h1 | h2
    · have h3 := List.mem_filter.mp h1
      exact Or.inl ⟨h3.1, by simpa using h3.2⟩
    · obtain ⟨q, hq, hqe⟩ := List.mem_map.mp h2
      exact Or.inr ⟨q, hq, hqe.symm⟩

/-- A pending task row that carries a REMOTE id (the state produced by an
offline `updateTaskLocally` on a previously synced row). -/
def exC1pending : LocalTask :=
  { id := "rec1", fields := { notes := some "edited offline" },
    _localId := none, _syncStatus := .pending, _modifiedAt := 50,
    _createdAt := none }

/-- Local store for the C1 scenario. -/
def exC1db : DB := { emptyDB with tasks := [exC1pending] }

/-- A fetched remote task with the SAME id as the pending local row. -/
def exC1fetched : Task :=
  { id := "rec1", name := "Buy milk", status := some "📥 Inbox",
    priority := none, startDate := none, dueDate := none, completedDate := none,
    projectId := none, projectName := none, tagIds := [], tagNames := none,
    parentTaskId := none, subtaskIds := [], sectionId := none, notes := "",
    syncToCalendar := false, scheduledTime := none, duration := none,
    calendarEventId := none, calendarSyncStatus := none, plannedEffort := none,
    actualEffort := none }

/-- Fetched data set whose task id collides with the pending local row. -/
def exC1data : FetchedData :=
  { tasks := [exC1fetched], projects := [], tags := [], sections := [] }

/-- Counterexample for C1: the fetched set contains a task with the same id
as a `pending` local row; `saveAllToLocal`'s `bulkPut` overwrites it, so
the pending row is NOT "still present and unmodified" after the cycle —
`bulkPut` replaces any row whose primary key collides with fetched data,
even a `pending` one. -/
theorem C1_counterexample :
    exC1pending ∈ exC1db.tasks
    ∧ exC1pending._syncStatus = SyncStatus.pending
    ∧ exC1pending ∉ (saveAllToLocal exC1db exC1data 99).tasks := by
  refine ⟨by decide, rfl, by decide⟩

/-- A fetched remote task whose id does not collide with the local row. -/
def exC1fetchedOther : Task := { exC1fetched with id := "rec9" }

/-- Fetched data set that does not mention the pending row's id. -/
def exC1dataOther : FetchedData :=
  { tasks := [exC1fetchedOther], projects := [], tags := [], sections := [] }

/-- Witness for C1: when the fetched set does not contain the pending row's
id, the pending row survives the refetch-and-replace cycle unmodified. -/
theorem C1_witness :
    exC1pending ∈ (saveAllToLocal exC1db exC1dataOther 99).tasks :=
  (C1_refresh_preserves exC1db exC1dataOther 99).1 exC1pending (by decide)
    (by decide) (by decide)

end AirTodoist
